import Mathlib

/-!
Verification of the `digitalocean_exporter` entrypoint (`main.go`).

Go strings are modelled as `List Char`; the program's observable startup
behaviour is modelled as a trace of events (log lines, collector
registrations, HTTP mux registrations, the listen call, process exit),
and the HTTP serve mux is modelled after Go's `net/http.ServeMux`
matching rules.
-/

set_option maxRecDepth 4000

/-- Go strings, modelled as lists of characters. -/
abbrev GoString := List Char

/-- The `Config` struct of `main.go`: content comes from the environment. -/
structure Config where
  Debug : Bool
  DigitalOceanToken : GoString
  HTTPTimeout : Int
  WebAddr : GoString
  WebPath : GoString
deriving DecidableEq

/-- Typed view of the environment variables `main.go` reads (a `none`
field means the corresponding variable is unset). -/
structure Env where
  debug : Option Bool
  token : Option GoString
  httpTimeout : Option Int
  webAddr : Option GoString
  webPath : Option GoString
deriving DecidableEq

/-- The environment with every variable unset. -/
def emptyEnv : Env :=
  { debug := none, token := none, httpTimeout := none
    webAddr := none, webPath := none }

/-- Configuration loading in `main` (`main.go` lines 51-56): the struct
literal sets the defaults `HTTPTimeout = 5000`, `WebPath = "/metrics"`,
`WebAddr = ":9212"` (with Go zero values `false` and `""` for the other
two fields), and `arg.MustParse` overwrites exactly the fields whose
environment variable is set. -/
def loadConfig (e : Env) : Config :=
  { Debug := e.debug.getD false
    DigitalOceanToken := e.token.getD []
    HTTPTimeout := e.httpTimeout.getD 5000
    WebAddr := e.webAddr.getD ":9212".data
    WebPath := e.webPath.getD "/metrics".data }

/-- An `oauth2.Token` value (only the field `main.go` sets). -/
structure OAuth2Token where
  AccessToken : GoString
deriving DecidableEq

/-- `Config.Token` (`main.go` lines 44-46): returns a pointer to a token
holding the configured string, and a nil error.  The first component
models the `*oauth2.Token` (`none` would be a nil pointer), the second
the `error`. -/
def Config.Token (c : Config) : Option OAuth2Token × Option GoString :=
  (some { AccessToken := c.DigitalOceanToken }, none)

/-- Build metadata of one process run: the package-level variables of
`main.go` lines 21-32.  `StartTime` is `time.Now()` evaluated once at
process initialization, modelled as an integer timestamp. -/
structure BuildInfo where
  Version : GoString
  Revision : GoString
  BuildDate : GoString
  GoVersion : GoString
  StartTime : Int
deriving DecidableEq

/-- The ten resource types whose collectors `main` registers. -/
inductive ResourceType
  | account
  | domain
  | droplet
  | exporterSelf
  | floatingIP
  | image
  | key
  | loadBalancer
  | snapshot
  | volume
deriving DecidableEq

/-- One collector-constructor call as it appears in `main.go` lines
87-96: the nine API-backed constructors receive the logger, the godo
client and the timeout duration (nanoseconds); `NewExporterCollector`
receives the logger, version string, build metadata and start time
instead. -/
inductive CollectorCall
  | api (rtype : ResourceType) (timeoutNs : Int)
  | exporter (version revision buildDate goVersion : GoString) (startTime : Int)
deriving DecidableEq

/-- The resource type a collector call is for. -/
def CollectorCall.rtype : CollectorCall → ResourceType
  | .api t _ => t
  | .exporter _ _ _ _ _ => .exporterSelf

/-- Whether the constructor receives the godo API client handle. -/
def CollectorCall.hasClient : CollectorCall → Bool
  | .api _ _ => true
  | .exporter _ _ _ _ _ => false

/-- The timeout duration handed to the constructor, if any. -/
def CollectorCall.timeoutArg : CollectorCall → Option Int
  | .api _ t => some t
  | .exporter _ _ _ _ _ => none

/-- Wrap an integer into Go's `int64` range, as Go multiplication does. -/
def int64wrap (n : Int) : Int :=
  (n + 2 ^ 63) % 2 ^ 64 - 2 ^ 63

/-- `time.Duration(c.HTTPTimeout) * time.Millisecond` (`main.go` line
85): the configured integer is interpreted as that many milliseconds,
i.e. multiplied by `10^6` nanoseconds, with `int64` wrap-around. -/
def timeoutDuration (c : Config) : Int :=
  int64wrap (c.HTTPTimeout * 1000000)

/-- The ten `prometheus.MustRegister` arguments of `main.go` lines
87-96, in program order. -/
def registrations (b : BuildInfo) (c : Config) : List CollectorCall :=
  [ .api .account (timeoutDuration c)
  , .api .domain (timeoutDuration c)
  , .api .droplet (timeoutDuration c)
  , .exporter b.Version b.Revision b.BuildDate b.GoVersion b.StartTime
  , .api .floatingIP (timeoutDuration c)
  , .api .image (timeoutDuration c)
  , .api .key (timeoutDuration c)
  , .api .loadBalancer (timeoutDuration c)
  , .api .snapshot (timeoutDuration c)
  , .api .volume (timeoutDuration c) ]

/-- Observable startup events of `main`. -/
inductive Event
  | panicked (msg : GoString)
  | logInfo (msg : GoString)
  | registerEv (call : CollectorCall)
  | handleEv (pattern : GoString)
  | listenEv (addr : GoString)
  | logError (msg : GoString)
  | exitEv (code : Nat)
deriving DecidableEq

/-- The event trace of `main` (`main.go` lines 48-114) for one run,
parameterised by the build metadata, the loaded configuration, and the
error `http.ListenAndServe` would return (`none`: it keeps serving /
returns nil).  A `panicked` event ends the trace (Go `panic`, and
`net/http` mux panics on an empty or duplicate pattern). -/
def mainTrace (b : BuildInfo) (c : Config) (listenErr : Option GoString) :
    List Event :=
  if c.DigitalOceanToken = [] then
    [.panicked "DigitalOcean Token is required".data]
  else
    [.logInfo "starting digitalocean_exporter".data]
    ++ (registrations b c).map Event.registerEv
    ++ (if c.WebPath = [] then
          [.panicked "http: invalid pattern".data]
        else
          [.handleEv c.WebPath]
          ++ (if c.WebPath = "/".data then
                [.panicked "http: multiple registrations for /".data]
              else
                [.handleEv "/".data, .logInfo "listening".data,
                 .listenEv c.WebAddr]
                ++ (match listenErr with
                    | some _ =>
                        [.logError "http listenandserve error".data,
                         .exitEv 1]
                    | none => [])))

/-- How one run of the process ends. -/
inductive Outcome
  | panicked (msg : GoString)
  | exited (code : Nat)
deriving DecidableEq

/-- The process outcome read off the end of the trace: a panic, an
explicit `os.Exit`, or falling off the end of `main` (exit code 0). -/
def runOutcome (b : BuildInfo) (c : Config) (listenErr : Option GoString) :
    Outcome :=
  match (mainTrace b c listenErr).getLast? with
  | some (.panicked m) => .panicked m
  | some (.exitEv n) => .exited n
  | _ => .exited 0

/-- Whether an outcome is a non-zero process exit status (a Go panic
terminates the process with status 2). -/
def Outcome.nonZero : Outcome → Bool
  | .panicked _ => true
  | .exited n => n != 0

/-- Whether an event is a collector registration. -/
def Event.isRegister : Event → Bool
  | .registerEv _ => true
  | _ => false

/-- Concrete build metadata used to instantiate theorems on one run. -/
def build0 : BuildInfo :=
  { Version := ['v'], Revision := ['r'], BuildDate := ['d']
    GoVersion := ['g'], StartTime := 7 }

/-- The default configuration with a one-character token set. -/
def cfg0 : Config :=
  { Debug := false, DigitalOceanToken := ['t'], HTTPTimeout := 5000
    WebAddr := ":9212".data, WebPath := "/metrics".data }

/-- The default configuration with the token left empty. -/
def cfgEmptyToken : Config :=
  { cfg0 with DigitalOceanToken := [] }

/-! ## The HTTP serve mux (`net/http.ServeMux`)

`main.go` lines 98-107 register two handlers on the default mux: the
metrics handler on `c.WebPath` and the landing-page handler on `"/"`.
The mux's matching rule (Go `net/http`): an exact-pattern match wins;
otherwise the longest registered pattern that ends in `/` and is a
prefix of the request path wins; otherwise the request gets the
`NotFoundHandler` (status 404). -/

/-- The two handlers `main` registers. -/
inductive HandlerId
  | metricsH
  | landing
deriving DecidableEq

/-- The mux pattern table after `main.go` lines 98-107, in registration
order. -/
def muxEntries (c : Config) : List (GoString × HandlerId) :=
  [(c.WebPath, .metricsH), ("/".data, .landing)]

/-- Registration succeeds only if no pattern is empty and no pattern is
registered twice (`net/http` panics otherwise); `main` registers
`c.WebPath` and then `"/"`. -/
def muxRegistered (c : Config) : Bool :=
  !(c.WebPath == [] || c.WebPath == "/".data)

/-- Go's `ServeMux.match`: exact pattern match first, then the longest
slash-terminated pattern that prefixes the path. -/
def muxMatch (entries : List (GoString × HandlerId)) (path : GoString) :
    Option HandlerId :=
  match entries.find? (fun e => e.1 == path) with
  | some e => some e.2
  | none =>
      (entries.foldl
        (fun best e =>
          if e.1.getLast? == some '/' && e.1.isPrefixOf path then
            match best with
            | none => some e
            | some b => if e.1.length > b.1.length then some e else best
          else best)
        none).map Prod.snd

/-- Go's `pathMatch` (`net/http`): a pattern not ending in `/` matches
only the identical path; a pattern ending in `/` matches every path it
prefixes; the empty pattern matches nothing. -/
def pathMatch (pattern path : GoString) : Bool :=
  if pattern = [] then false
  else if pattern.getLast? = some '/' then pattern.isPrefixOf path
  else pattern == path

/-- What an HTTP response to one request looks like in this model: a
page with a status code and body, the metrics exposition produced by
`promhttp.Handler()` (external, not modelled further), or a redirect
with its status code and `Location` target. -/
inductive HTTPResponse
  | page (status : Nat) (body : GoString)
  | metricsExposition
  | redirect (status : Nat) (location : GoString)
deriving DecidableEq

/-- The raw-string literal before `c.WebPath` in `main.go` lines
100-104. -/
def landingPre : GoString :=
  ("<html>\n\t\t\t<head><title>DigitalOcean Exporter</title></head>\n\t\t\t<body>\n\t\t\t<h1>DigitalOcean Exporter</h1>\n\t\t\t<p><a href=\"").data

/-- The raw-string literal after `c.WebPath` in `main.go` lines
104-106. -/
def landingPost : GoString :=
  ("\">Metrics</a></p>\n\t\t\t</body>\n\t\t\t</html>").data

/-- The landing-page body written by the `"/"` handler (`main.go` lines
99-107). -/
def landingBody (webPath : GoString) : GoString :=
  landingPre ++ webPath ++ landingPost

/-- The handler-lookup step of serving one request (Go's
`mux.handler`, applied after `ServeMux.Handler`'s path canonicalization
and redirect checks — see `serveHTTP`): `none` when startup never
reaches serving because mux registration panicked; otherwise the
matched handler's response.  `w.Write` without `WriteHeader` sends
status 200; an unmatched request gets `net/http`'s 404 page. -/
def serveRequest (c : Config) (path : GoString) : Option HTTPResponse :=
  if muxRegistered c then
    some (match muxMatch (muxEntries c) path with
      | some .metricsH => .metricsExposition
      | some .landing => .page 200 (landingBody c.WebPath)
      | none => .page 404 "404 page not found\n".data)
  else
    none

/-- Processing the `/`-separated segments of a rooted path as Go's
`path.Clean` does: empty segments and `.` disappear, `..` pops the
previous segment (never rising above the root). -/
def cleanSegments (segs : List GoString) : List GoString :=
  segs.foldl
    (fun acc s =>
      if s = [] ∨ s = ['.'] then acc
      else if s = ['.', '.'] then acc.dropLast
      else acc ++ [s])
    []

/-- Go's `net/http` `cleanPath`: the empty path becomes `/`, a `/` is
prepended if missing, the path is lexically cleaned (`path.Clean`), and
a trailing `/` of the input is preserved unless the result is `/`
itself. -/
def cleanPath (p : GoString) : GoString :=
  if p = [] then ['/']
  else
    let rooted := if p.head? = some '/' then p else '/' :: p
    let segs := cleanSegments (rooted.splitOn '/')
    let np := if segs = [] then ['/']
              else segs.foldl (fun acc s => acc ++ '/' :: s) []
    if rooted.getLast? = some '/' ∧ np ≠ ['/'] then np ++ ['/'] else np

/-- Go's `ServeMux.shouldRedirectRLocked` for this mux: a cleaned path
with no exact-pattern entry of its own, but whose slash-suffixed form
is a registered pattern, is answered with a redirect to `path + "/"`
(unless it already ends in `/`). -/
def shouldRedirect (c : Config) (path : GoString) : Bool :=
  if (muxEntries c).any (fun e => e.1 == path) then false
  else if path = [] then false
  else if (muxEntries c).any (fun e => e.1 == path ++ ['/']) then
    path.getLast? != some '/'
  else false

/-- Serving one request once the listener is up, Go's
`ServeMux.Handler`: the request path is canonicalized by `cleanPath`;
if the cleaned path is a subtree root whose slash form is registered,
a 301 redirect to `cleaned + "/"` is sent; if cleaning changed the
path, a 301 redirect to the cleaned path is sent; otherwise the matched
handler (`serveRequest`) answers. -/
def serveHTTP (c : Config) (path : GoString) : Option HTTPResponse :=
  if muxRegistered c then
    if shouldRedirect c (cleanPath path) then
      some (.redirect 301 (cleanPath path ++ ['/']))
    else if cleanPath path = path then
      serveRequest c path
    else
      some (.redirect 301 (cleanPath path))
  else
    none

/-! ## The collector registry

Modelled from the spec: the Prometheus registry that
`prometheus.MustRegister` feeds, and the collectors' metric descriptor
sets, live outside `src/` (the `collector` package and the Prometheus
client library), so the registry's collision behaviour is taken from
the spec: "Register(collector): adds a collector to the active set.
Fails fast at startup if two collectors declare metrics with the same
fully-qualified name and label schema". -/

/-- Modelled from the spec: a metric descriptor's identity for collision
purposes — its fully-qualified name and its label schema. -/
structure MetricDesc where
  fqName : GoString
  labels : List GoString
deriving DecidableEq

/-- The registry's set of already-declared descriptors. -/
abbrev Registry := List MetricDesc

/-- Modelled from the spec: registering one collector, given the
descriptor set it declares.  If any declared descriptor collides with
one already registered (same fully-qualified name and label schema),
registration fails fatally (`none`, a `MustRegister` panic); otherwise
the descriptors join the registry. -/
def registerStep (r : Registry) (ds : List MetricDesc) : Option Registry :=
  if ds.any (fun d => r.contains d) then none else some (r ++ ds)

/-- Modelled from the spec: registering a sequence of collectors (their
descriptor sets, in program order) into an empty registry, stopping
fatally at the first collision. -/
def registerSequence (l : List (List MetricDesc)) : Option Registry :=
  l.foldlM registerStep []

/-- Two descriptor sets are collision-free when no descriptor (name and
label schema) occurs in both. -/
def noCollision (a b : List MetricDesc) : Prop :=
  ∀ d, d ∈ a → d ∉ b

/-- A concrete metric descriptor used to instantiate registry
theorems. -/
def desc0 : MetricDesc :=
  { fqName := "digitalocean_droplet_up".data
    labels := ["id".data, "name".data] }

/-! ## Helper lemmas -/

/-- An indexed element of an append that cannot lie in the right part
has its index inside the left part. -/
theorem idx_lt_of_not_mem_right {α : Type} {l₁ l₂ : List α} {i : Nat}
    {x : α} (h : (l₁ ++ l₂).get? i = some x) (hx : x ∉ l₂) :
    i < l₁.length := by
  by_contra hi
  push_neg at hi
  rw [List.get?_eq_getElem?, List.getElem?_append_right hi] at h
  exact hx (List.get?_mem (List.get?_eq_getElem? _ _ ▸ h))

/-- An indexed element of an append that cannot lie in the left part has
its index past the left part. -/
theorem idx_ge_of_not_mem_left {α : Type} {l₁ l₂ : List α} {i : Nat}
    {x : α} (h : (l₁ ++ l₂).get? i = some x) (hx : x ∉ l₁) :
    l₁.length ≤ i := by
  by_contra hi
  push_neg at hi
  rw [List.get?_eq_getElem?, List.getElem?_append_left hi] at h
  exact hx (List.get?_mem (List.get?_eq_getElem? _ _ ▸ h))

/-- A `listenEv` event occurs in the trace only when the token check,
the `WebPath` mux-pattern checks all passed, and only for the configured
address. -/
theorem listen_mem_conditions {b : BuildInfo} {c : Config}
    {e : Option GoString} {addr : GoString}
    (h : Event.listenEv addr ∈ mainTrace b c e) :
    c.DigitalOceanToken ≠ [] ∧ c.WebPath ≠ [] ∧ c.WebPath ≠ "/".data ∧
      addr = c.WebAddr := by
  by_cases h1 : c.DigitalOceanToken = []
  · simp [mainTrace, h1] at h
  by_cases h2 : c.WebPath = []
  · simp [mainTrace, h1, h2] at h
  by_cases h3 : c.WebPath = "/".data
  · simp [mainTrace, h1, h2, h3] at h
  refine ⟨h1, h2, h3, ?_⟩
  rcases e with _ | err <;> simpa [mainTrace, h1, h2, h3] using h

/-- In the serving case the trace decomposes as the pre-listen prefix
followed by the listen event and the shutdown tail. -/
theorem mainTrace_serving (b : BuildInfo) (c : Config) (e : Option GoString)
    (h1 : c.DigitalOceanToken ≠ []) (h2 : c.WebPath ≠ [])
    (h3 : c.WebPath ≠ "/".data) :
    mainTrace b c e =
      ([Event.logInfo "starting digitalocean_exporter".data]
        ++ (registrations b c).map Event.registerEv
        ++ [Event.handleEv c.WebPath, Event.handleEv "/".data,
            Event.logInfo "listening".data])
      ++ (Event.listenEv c.WebAddr ::
          (match e with
           | some _ => [Event.logError "http listenandserve error".data,
                        Event.exitEv 1]
           | none => [])) := by
  rcases e with _ | err <;> simp [mainTrace, h1, h2, h3]

/-- Soundness of the registration fold: when registering a sequence of
descriptor sets into registry `r` succeeds, none of them collides with
`r` and they are pairwise collision-free. -/
theorem registerSequence_sound (l : List (List MetricDesc)) :
    ∀ r r' : Registry, List.foldlM registerStep r l = some r' →
      (∀ ds ∈ l, ∀ d ∈ ds, d ∉ r) ∧ l.Pairwise noCollision := by
  induction l with
  | nil =>
      intro r r' _
      exact ⟨by simp, List.Pairwise.nil⟩
  | cons ds rest ih =>
      intro r r' h
      rw [List.foldlM_cons] at h
      rcases hstep : registerStep r ds with _ | r₁
      · rw [hstep] at h
        simp at h
      rw [hstep] at h
      have hcond : ds.any (fun d => decide (d ∈ r)) = false ∧
          r₁ = r ++ ds := by
        unfold registerStep at hstep
        split at hstep
        · exact absurd hstep (by simp)
        · next hneg =>
            exact ⟨by simpa using hneg, (Option.some.inj hstep).symm⟩
      have hds : ∀ d ∈ ds, d ∉ r := by
        have := hcond.1
        simp only [List.any_eq_false, decide_eq_true_eq] at this
        exact this
      obtain ⟨H1, H2⟩ := ih r₁ r' h
      rw [hcond.2] at H1
      constructor
      · intro ds0 h0
        rcases List.mem_cons.mp h0 with h0 | h0
        · exact h0 ▸ hds
        · intro d hd hdr
          exact H1 ds0 h0 d hd (List.mem_append_left _ hdr)
      · refine List.Pairwise.cons ?_ H2
        intro b hb d hd hdb
        exact H1 b hb d hdb (List.mem_append_right _ hd)

/-- Every `registerEv` index strictly precedes every `listenEv` index in
the trace. -/
theorem registerEv_before_listenEv {b : BuildInfo} {c : Config}
    {e : Option GoString} {i j : Nat} {call : CollectorCall}
    {addr : GoString}
    (hi : (mainTrace b c e).get? i = some (Event.registerEv call))
    (hj : (mainTrace b c e).get? j = some (Event.listenEv addr)) :
    i < j := by
  obtain ⟨h1, h2, h3, -⟩ := listen_mem_conditions (List.get?_mem hj)
  rw [mainTrace_serving b c e h1 h2 h3] at hi hj
  have hilt : i < 14 := by
    have := idx_lt_of_not_mem_right hi (by rcases e with _ | err <;> simp)
    simpa [registrations] using this
  have hjge : 14 ≤ j := by
    have := idx_ge_of_not_mem_left hj (by simp [registrations])
    simpa [registrations] using this
  omega

/-! ## The claims -/

/-- C1: if the configured token is empty, the process panics at startup
before any collector registration and before the listener starts; with a
non-empty token the check passes (no token panic) and startup proceeds
to register every collector. -/
theorem token_gate (b : BuildInfo) (c : Config) (e : Option GoString) :
    (c.DigitalOceanToken = [] →
      mainTrace b c e =
          [Event.panicked "DigitalOcean Token is required".data]
        ∧ runOutcome b c e =
            Outcome.panicked "DigitalOcean Token is required".data
        ∧ (∀ call, Event.registerEv call ∉ mainTrace b c e)
        ∧ (∀ a, Event.listenEv a ∉ mainTrace b c e))
  ∧ (c.DigitalOceanToken ≠ [] →
      Event.panicked "DigitalOcean Token is required".data ∉ mainTrace b c e
        ∧ (mainTrace b c e).get? 0 =
            some (Event.logInfo "starting digitalocean_exporter".data)
        ∧ ∀ call ∈ registrations b c,
            Event.registerEv call ∈ mainTrace b c e) := by
  constructor
  · intro h1
    refine ⟨by simp [mainTrace, h1], by simp [runOutcome, mainTrace, h1], ?_, ?_⟩
    · intro call
      simp [mainTrace, h1]
    · intro a
      simp [mainTrace, h1]
  · intro h1
    refine ⟨?_, ?_, ?_⟩
    · by_cases h2 : c.WebPath = []
      · simp [mainTrace, h1, h2, registrations]
      by_cases h3 : c.WebPath = "/".data
      · simp [mainTrace, h1, h2, h3, registrations]
      rcases e with _ | err <;>
        simp [mainTrace, h1, h2, h3, registrations]
    · simp [mainTrace, h1]
    · intro call hcall
      by_cases h2 : c.WebPath = []
      · simp [mainTrace, h1, h2]
        exact hcall
      by_cases h3 : c.WebPath = "/".data
      · simp [mainTrace, h1, h2, h3]
        exact hcall
      rcases e with _ | err <;>
        · simp [mainTrace, h1, h2, h3]
          exact hcall

/-- C1 witness: with an empty token the run is exactly the startup
panic; with a one-character token the trace starts with the startup log
line. -/
theorem token_gate_witness :
    mainTrace build0 cfgEmptyToken none =
        [Event.panicked "DigitalOcean Token is required".data]
      ∧ (mainTrace build0 cfg0 none).get? 0 =
          some (Event.logInfo "starting digitalocean_exporter".data) :=
  ⟨((token_gate build0 cfgEmptyToken none).1 rfl).1,
   ((token_gate build0 cfg0 none).2 (by decide)).2.1⟩

/-- C2: every `MustRegister` call strictly precedes the
`ListenAndServe` call in the program's execution order, and once the
listener is reached the trace holds exactly the ten registration
events, so the registry's collector set is complete before serving and
never extended afterwards. -/
theorem mustRegister_before_listen (b : BuildInfo) (c : Config)
    (e : Option GoString) :
    (∀ i j call addr,
        (mainTrace b c e).get? i = some (Event.registerEv call) →
        (mainTrace b c e).get? j = some (Event.listenEv addr) → i < j)
  ∧ (∀ j addr,
        (mainTrace b c e).get? j = some (Event.listenEv addr) →
        (mainTrace b c e).countP Event.isRegister = 10) := by
  constructor
  · intro i j call addr hi hj
    exact registerEv_before_listenEv hi hj
  · intro j addr hj
    obtain ⟨h1, h2, h3, -⟩ := listen_mem_conditions (List.get?_mem hj)
    rw [mainTrace_serving b c e h1 h2 h3]
    rcases e with _ | err <;>
      simp [registrations, Event.isRegister, List.countP_cons]

/-- C2 witness: in the default-configuration run, the first registration
sits at index 1, the listen event at index 14, and 1 < 14. -/
theorem mustRegister_before_listen_witness :
    (mainTrace build0 cfg0 none).get? 1 =
        some (Event.registerEv (CollectorCall.api ResourceType.account
          5000000000))
      ∧ (mainTrace build0 cfg0 none).get? 14 =
          some (Event.listenEv ":9212".data)
      ∧ (1 : Nat) < 14 :=
  ⟨by decide, by decide,
   (mustRegister_before_listen build0 cfg0 none).1 1 14
     (CollectorCall.api ResourceType.account 5000000000) ":9212".data
     (by decide) (by decide)⟩

/-- C4: startup registers exactly one collector per resource type,
covering exactly the ten types — none twice, none omitted. -/
theorem one_collector_per_type (b : BuildInfo) (c : Config) :
    (registrations b c).map CollectorCall.rtype =
      [ResourceType.account, ResourceType.domain, ResourceType.droplet,
       ResourceType.exporterSelf, ResourceType.floatingIP,
       ResourceType.image, ResourceType.key, ResourceType.loadBalancer,
       ResourceType.snapshot, ResourceType.volume]
  ∧ ((registrations b c).map CollectorCall.rtype).Nodup
  ∧ ∀ t : ResourceType,
      t ∈ (registrations b c).map CollectorCall.rtype := by
  refine ⟨rfl, ?_, ?_⟩
  · show List.Nodup [ResourceType.account, ResourceType.domain,
      ResourceType.droplet, ResourceType.exporterSelf,
      ResourceType.floatingIP, ResourceType.image, ResourceType.key,
      ResourceType.loadBalancer, ResourceType.snapshot,
      ResourceType.volume]
    decide
  · intro t
    show t ∈ [ResourceType.account, ResourceType.domain,
      ResourceType.droplet, ResourceType.exporterSelf,
      ResourceType.floatingIP, ResourceType.image, ResourceType.key,
      ResourceType.loadBalancer, ResourceType.snapshot,
      ResourceType.volume]
    cases t <;> decide

/-- C5: with every environment variable unset, the loaded configuration
is the default (timeout 5000, listen address `:9212`, scrape path
`/metrics`); every API-backed collector is constructed with the one
duration `timeoutDuration c`; and (absent `int64` overflow) that
duration is exactly `HTTPTimeout` milliseconds, i.e.
`HTTPTimeout * 10^6` nanoseconds. -/
theorem config_defaults_and_timeout :
    loadConfig emptyEnv =
      { Debug := false, DigitalOceanToken := [], HTTPTimeout := 5000
        WebAddr := ":9212".data, WebPath := "/metrics".data }
  ∧ (∀ (b : BuildInfo) (c : Config) (rt : ResourceType) (t : Int),
      CollectorCall.api rt t ∈ registrations b c → t = timeoutDuration c)
  ∧ (∀ c : Config, -(2 ^ 63) ≤ c.HTTPTimeout * 1000000 →
      c.HTTPTimeout * 1000000 < 2 ^ 63 →
      timeoutDuration c = c.HTTPTimeout * 1000000) := by
  refine ⟨rfl, ?_, ?_⟩
  · intro b c rt t hmem
    simp [registrations] at hmem
    rcases hmem with ⟨-, h⟩ | ⟨-, h⟩ | ⟨-, h⟩ | ⟨-, h⟩ | ⟨-, h⟩ |
      ⟨-, h⟩ | ⟨-, h⟩ | ⟨-, h⟩ | ⟨-, h⟩ <;> exact h
  · intro c hlo hhi
    unfold timeoutDuration int64wrap
    omega

/-- C5 witness: in the default configuration the droplet collector is
constructed with 5000 ms = 5000000000 ns, and `timeoutDuration`
evaluates to exactly that. -/
theorem config_defaults_and_timeout_witness :
    CollectorCall.api ResourceType.droplet 5000000000 ∈
        registrations build0 cfg0
      ∧ (5000000000 : Int) = timeoutDuration cfg0
      ∧ timeoutDuration cfg0 = cfg0.HTTPTimeout * 1000000 :=
  ⟨by decide,
   config_defaults_and_timeout.2.1 build0 cfg0 ResourceType.droplet
     5000000000 (by decide),
   config_defaults_and_timeout.2.2 cfg0 (by decide) (by decide)⟩

/-- C7: the exporter self-stats collector is the unique registration for
its resource type; it is constructed from the logger plus the version
string, build metadata and process start time only — no API client
handle and no timeout. -/
theorem exporter_collector_shape (b : BuildInfo) (c : Config) :
    CollectorCall.exporter b.Version b.Revision b.BuildDate b.GoVersion
        b.StartTime ∈ registrations b c
  ∧ ∀ call ∈ registrations b c,
      call.rtype = ResourceType.exporterSelf →
        call = CollectorCall.exporter b.Version b.Revision b.BuildDate
            b.GoVersion b.StartTime
          ∧ call.hasClient = false
          ∧ call.timeoutArg = none := by
  constructor
  · simp [registrations]
  · intro call hcall ht
    simp [registrations] at hcall
    rcases hcall with h | h | h | h | h | h | h | h | h | h <;>
      subst h <;>
      first
        | exact ⟨rfl, rfl, rfl⟩
        | exact absurd ht (by simp [CollectorCall.rtype])

/-- C7 witness: in the concrete run the exporter registration carries
exactly the build metadata and start time, with no client and no
timeout. -/
theorem exporter_collector_shape_witness :
    CollectorCall.rtype (CollectorCall.exporter ['v'] ['r'] ['d'] ['g'] 7)
        = ResourceType.exporterSelf
      ∧ (CollectorCall.exporter ['v'] ['r'] ['d'] ['g'] 7
            = CollectorCall.exporter build0.Version build0.Revision
                build0.BuildDate build0.GoVersion build0.StartTime
          ∧ CollectorCall.hasClient
              (CollectorCall.exporter ['v'] ['r'] ['d'] ['g'] 7) = false
          ∧ CollectorCall.timeoutArg
              (CollectorCall.exporter ['v'] ['r'] ['d'] ['g'] 7) = none) :=
  ⟨by decide,
   (exporter_collector_shape build0 cfg0).2
     (CollectorCall.exporter ['v'] ['r'] ['d'] ['g'] 7) (by decide)
     (by decide)⟩

/-- C9: `Config.Token` always returns a non-nil token whose
`AccessToken` is exactly the configured string, with a nil error, for
every configuration value. -/
theorem config_token_total (c : Config) :
    (∃ tok : OAuth2Token, (c.Token).1 = some tok ∧
        tok.AccessToken = c.DigitalOceanToken)
  ∧ (c.Token).2 = none :=
  ⟨⟨{ AccessToken := c.DigitalOceanToken }, rfl, rfl⟩, rfl⟩

/-- C6: the process exits 0 only when the token check passed and the
listener never failed; a missing token ends the process with a non-zero
status; a graceful run exits 0; and a listener failure yields exit
status 1 with the error logged at error severity before the exit. -/
theorem exit_codes (b : BuildInfo) (c : Config) (e : Option GoString) :
    (runOutcome b c e = Outcome.exited 0 →
        c.DigitalOceanToken ≠ [] ∧ e = none)
  ∧ (c.DigitalOceanToken = [] → (runOutcome b c e).nonZero = true)
  ∧ (c.DigitalOceanToken ≠ [] → c.WebPath ≠ [] → c.WebPath ≠ "/".data →
        e = none → runOutcome b c e = Outcome.exited 0)
  ∧ (∀ err, e = some err → c.DigitalOceanToken ≠ [] → c.WebPath ≠ [] →
        c.WebPath ≠ "/".data →
        runOutcome b c e = Outcome.exited 1
        ∧ (runOutcome b c e).nonZero = true
        ∧ ∃ i j, i < j
            ∧ (mainTrace b c e).get? i =
                some (Event.logError "http listenandserve error".data)
            ∧ (mainTrace b c e).get? j = some (Event.exitEv 1)) := by
  refine ⟨?_, ?_, ?_, ?_⟩
  · intro h0
    by_cases h1 : c.DigitalOceanToken = []
    · have ht : mainTrace b c e =
          [Event.panicked "DigitalOcean Token is required".data] := by
        simp [mainTrace, h1]
      rw [runOutcome, ht] at h0
      exact absurd h0 (by simp)
    by_cases h2 : c.WebPath = []
    · have ht : mainTrace b c e =
          Event.logInfo "starting digitalocean_exporter".data ::
            ((registrations b c).map Event.registerEv ++
              [Event.panicked "http: invalid pattern".data]) := by
        simp [mainTrace, h1, h2]
      rw [runOutcome, ht] at h0
      simp [registrations] at h0
    by_cases h3 : c.WebPath = "/".data
    · have ht : mainTrace b c e =
          Event.logInfo "starting digitalocean_exporter".data ::
            ((registrations b c).map Event.registerEv ++
              [Event.handleEv c.WebPath,
               Event.panicked "http: multiple registrations for /".data]) := by
        simp [mainTrace, h1, h2, h3]
      rw [runOutcome, ht] at h0
      simp [registrations] at h0
    rcases e with _ | err
    · exact ⟨h1, rfl⟩
    · rw [runOutcome, mainTrace_serving b c (some err) h1 h2 h3] at h0
      simp [registrations] at h0
  · intro h1
    have ht : mainTrace b c e =
        [Event.panicked "DigitalOcean Token is required".data] := by
      simp [mainTrace, h1]
    rw [runOutcome, ht]
    rfl
  · intro h1 h2 h3 he
    subst he
    rw [runOutcome, mainTrace_serving b c none h1 h2 h3]
    simp [registrations]
  · intro err he h1 h2 h3
    subst he
    have ht := mainTrace_serving b c (some err) h1 h2 h3
    have hout : runOutcome b c (some err) = Outcome.exited 1 := by
      rw [runOutcome, ht]
      simp [registrations]
    refine ⟨hout, by rw [hout]; rfl, 15, 16, by omega, ?_, ?_⟩
    · rw [ht]
      simp [registrations]
    · rw [ht]
      simp [registrations]

/-- C6 witness: with the token set and a listener error, the run exits
with status 1 and logs the error at indices preceding the exit event;
with an empty token the outcome is a non-zero status. -/
theorem exit_codes_witness :
    (runOutcome build0 cfg0 (some "bind: address in use".data) =
        Outcome.exited 1
      ∧ (runOutcome build0 cfg0 (some "bind: address in use".data)).nonZero
          = true
      ∧ ∃ i j, i < j
          ∧ (mainTrace build0 cfg0 (some "bind: address in use".data)).get? i
              = some (Event.logError "http listenandserve error".data)
          ∧ (mainTrace build0 cfg0 (some "bind: address in use".data)).get? j
              = some (Event.exitEv 1))
    ∧ (runOutcome build0 cfgEmptyToken none).nonZero = true :=
  ⟨(exit_codes build0 cfg0 (some "bind: address in use".data)).2.2.2
     "bind: address in use".data rfl (by decide) (by decide) (by decide),
   (exit_codes build0 cfgEmptyToken none).2.1 rfl⟩

/-- C3: registering two collectors whose declared metrics collide on
fully-qualified name and label schema aborts registration fatally; when
every registration succeeds, the registered descriptor sets are
pairwise collision-free; and every registration event precedes the
listen event, so a registration failure strikes before the listener
serves traffic. -/
theorem collision_fatal_before_serving :
    (∀ (l : List (List MetricDesc)) (i j : Nat) (hi : i < l.length)
        (hj : j < l.length), i < j →
        (∃ d, d ∈ l.get ⟨i, hi⟩ ∧ d ∈ l.get ⟨j, hj⟩) →
        registerSequence l = none)
  ∧ (∀ (l : List (List MetricDesc)) (r : Registry),
        registerSequence l = some r → l.Pairwise noCollision)
  ∧ (∀ (b : BuildInfo) (c : Config) (e : Option GoString) (i j : Nat)
        (call : CollectorCall) (addr : GoString),
        (mainTrace b c e).get? i = some (Event.registerEv call) →
        (mainTrace b c e).get? j = some (Event.listenEv addr) →
        i < j) := by
  refine ⟨?_, ?_, ?_⟩
  · intro l i j hi hj hij hcol
    by_contra hne
    obtain ⟨r, hr⟩ := Option.ne_none_iff_exists.mp hne
    have hpw := (registerSequence_sound l [] r hr.symm).2
    obtain ⟨d, hdi, hdj⟩ := hcol
    exact (List.pairwise_iff_get.mp hpw ⟨i, hi⟩ ⟨j, hj⟩ hij) d hdi hdj
  · intro l r hr
    exact (registerSequence_sound l [] r hr).2
  · intro b c e i j call addr hi hj
    exact registerEv_before_listenEv hi hj

/-- C3 witness: two collectors declaring the same descriptor make the
registration sequence abort fatally. -/
theorem collision_fatal_before_serving_witness :
    registerSequence [[desc0], [desc0]] = none :=
  collision_fatal_before_serving.1 [[desc0], [desc0]] 0 1 (by decide)
    (by decide) (by decide) ⟨desc0, by decide, by decide⟩

/-- C8: whenever the server is serving (mux registration succeeded), a
request for `/` gets the landing page with status 200, and its HTML
contains a hyperlink whose target is exactly the configured scrape
path. -/
theorem landing_page_link (c : Config) (r : HTTPResponse)
    (hs : serveRequest c "/".data = some r) :
    r = HTTPResponse.page 200 (landingBody c.WebPath)
  ∧ ∃ pre post, landingBody c.WebPath =
      pre ++ ("<a href=\"".data ++ c.WebPath ++ "\"".data) ++ post := by
  have hR : muxRegistered c = true := by
    by_contra hR
    rw [Bool.not_eq_true] at hR
    unfold serveRequest at hs
    rw [hR] at hs
    simp at hs
  have h23 : ¬ c.WebPath = [] ∧ ¬ c.WebPath = "/".data := by
    simpa [muxRegistered] using hR
  have hfind : muxMatch (muxEntries c) "/".data = some HandlerId.landing := by
    simp [muxMatch, muxEntries, List.find?_cons, h23.2]
  unfold serveRequest at hs
  rw [hR] at hs
  rw [hfind] at hs
  simp at hs
  refine ⟨hs.symm, ?_, ?_, ?_⟩
  · exact ("<html>\n\t\t\t<head><title>DigitalOcean Exporter</title></head>\n\t\t\t<body>\n\t\t\t<h1>DigitalOcean Exporter</h1>\n\t\t\t<p>").data
  · exact (">Metrics</a></p>\n\t\t\t</body>\n\t\t\t</html>").data
  · have hpre : landingPre =
        ("<html>\n\t\t\t<head><title>DigitalOcean Exporter</title></head>\n\t\t\t<body>\n\t\t\t<h1>DigitalOcean Exporter</h1>\n\t\t\t<p>").data
          ++ ("<a href=\"").data := by decide
    have hpost : landingPost =
        ("\"").data ++ (">Metrics</a></p>\n\t\t\t</body>\n\t\t\t</html>").data := by
      decide
    rw [landingBody, hpre, hpost]
    simp [List.append_assoc]

/-- C8 witness: under the default scrape path the landing page is
served for `/` and links to `/metrics`. -/
theorem landing_page_link_witness :
    serveRequest cfg0 "/".data =
        some (HTTPResponse.page 200 (landingBody cfg0.WebPath))
      ∧ ∃ pre post, landingBody cfg0.WebPath =
          pre ++ ("<a href=\"".data ++ cfg0.WebPath ++ "\"".data) ++ post :=
  ⟨by decide,
   (landing_page_link cfg0
      (HTTPResponse.page 200 (landingBody cfg0.WebPath)) (by decide)).2⟩

/-- Helper for the catch-all property: at the handler-lookup step
(after canonicalization), a rooted path matching neither the
scrape-path pattern nor any other registered pattern resolves to the
landing handler's 200 page. -/
theorem match_catch_all (c : Config) (path : GoString) (r : HTTPResponse)
    (hs : serveRequest c path = some r)
    (hp : path.head? = some '/')
    (hm : pathMatch c.WebPath path = false) :
    r = HTTPResponse.page 200 (landingBody c.WebPath) := by
  have hR : muxRegistered c = true := by
    by_contra hR
    rw [Bool.not_eq_true] at hR
    unfold serveRequest at hs
    rw [hR] at hs
    simp at hs
  have h23 : ¬ c.WebPath = [] ∧ ¬ c.WebPath = "/".data := by
    simpa [muxRegistered] using hR
  cases path with
  | nil => simp at hp
  | cons a t =>
    have ha : a = '/' := by simpa using hp
    subst ha
    rw [pathMatch, if_neg h23.1] at hm
    have hwp_ne_path : ¬ c.WebPath = '/' :: t := by
      intro heq
      by_cases hsl : c.WebPath.getLast? = some '/'
      · rw [if_pos hsl, heq] at hm
        have : (('/' :: t : GoString)).isPrefixOf ('/' :: t) = true := by
          rw [ List.isPrefixOf_iff_prefix]
        rw [this] at hm
        cases hm
      · rw [if_neg hsl, heq] at hm
        simp at hm
    have hslashdata : ("/".data : GoString) = ['/'] := rfl
    have hmux : muxMatch (muxEntries c) ('/' :: t) = some HandlerId.landing := by
      by_cases ht : t = []
      · subst ht
        simp [muxMatch, muxEntries, List.find?_cons, hwp_ne_path, hslashdata]
      · have hfind2 : ¬ ("/".data : GoString) = '/' :: t := by
          rw [hslashdata]
          intro h
          exact ht (List.cons.injEq .. ▸ h).2.symm
        have hte : t.isEmpty = false := by
          cases t with
          | nil => exact absurd rfl ht
          | cons x xs => rfl
        by_cases hsl : c.WebPath.getLast? = some '/'
        · rw [if_pos hsl] at hm
          have hm' : ¬ (c.WebPath <+: ('/' :: t)) := by
            intro hpref
            rw [( List.isPrefixOf_iff_prefix).mpr hpref] at hm
            cases hm
          simp [muxMatch, muxEntries, List.find?_cons, hwp_ne_path, hfind2,
            List.foldl_cons, hsl, hm', hte, hslashdata, List.isPrefixOf]
        · rw [if_neg hsl] at hm
          simp [muxMatch, muxEntries, List.find?_cons, hwp_ne_path, hfind2,
            List.foldl_cons, hsl, hte, hslashdata, List.isPrefixOf]
    unfold serveRequest at hs
    rw [hR] at hs
    rw [hmux] at hs
    simp at hs
    exact hs.symm

/-- C10 counterexample: under the default configuration the rooted
request path `//x` matches neither registered pattern, yet the program
answers it with a 301 redirect to the cleaned path `/x` — not the 200
landing page — because `ServeMux.Handler` canonicalizes the path
first. -/
theorem catch_all_landing_counterexample :
    pathMatch cfg0.WebPath "//x".data = false
  ∧ ("//x".data : GoString).head? = some '/'
  ∧ serveHTTP cfg0 "//x".data =
      some (HTTPResponse.redirect 301 "/x".data)
  ∧ serveHTTP cfg0 "//x".data ≠
      some (HTTPResponse.page 200 (landingBody cfg0.WebPath)) := by
  decide

/-- C10 (amended): the landing handler is registered on the catch-all
pattern `/`, so any served request whose rooted path is already
canonical (path cleaning leaves it unchanged), is not the
subtree-root slash-redirect case, and matches neither the scrape-path
pattern nor any other registered pattern receives the landing page with
status 200 — never a 404; non-canonical or slash-redirect paths get a
301 redirect instead. -/
theorem catch_all_landing (c : Config) (path : GoString) (r : HTTPResponse)
    (hs : serveHTTP c path = some r)
    (hp : path.head? = some '/')
    (hclean : cleanPath path = path)
    (hnr : shouldRedirect c path = false)
    (hm : pathMatch c.WebPath path = false) :
    r = HTTPResponse.page 200 (landingBody c.WebPath) := by
  have hR : muxRegistered c = true := by
    by_contra hR
    rw [Bool.not_eq_true] at hR
    unfold serveHTTP at hs
    rw [hR] at hs
    simp at hs
  unfold serveHTTP at hs
  rw [hR, hclean, hnr] at hs
  simp only [Bool.false_eq_true, if_false, if_true, if_pos rfl] at hs
  exact match_catch_all c path r hs hp hm

/-- C10 witness: with the default scrape path, the already-canonical
request path `/healthz` triggers no redirect, matches neither
registered pattern except the catch-all, and receives the landing page
with status 200. -/
theorem catch_all_landing_witness :
    serveHTTP cfg0 "/healthz".data =
        some (HTTPResponse.page 200 (landingBody cfg0.WebPath))
      ∧ cleanPath "/healthz".data = "/healthz".data
      ∧ shouldRedirect cfg0 "/healthz".data = false
      ∧ HTTPResponse.page 200 (landingBody cfg0.WebPath) =
          HTTPResponse.page 200 (landingBody cfg0.WebPath) :=
  ⟨by decide, by decide, by decide,
   catch_all_landing cfg0 "/healthz".data
     (HTTPResponse.page 200 (landingBody cfg0.WebPath)) (by decide)
     (by decide) (by decide) (by decide) (by decide)⟩
